import Mathlib

/-
Verification of the frame / carrier / time-slot configuration subsystem of
`satellite-frame-conf.h` (sns3-satellite).  The header under `src/model/` is
the authority wherever it carries an inline body; method bodies living in the
missing `satellite-frame-conf.cc` are modelled from the specification and
marked as such in their doc comments.

Modelling conventions:
- C++ `double` bandwidth values are embedded as exact rationals (`ℚ`); the
  claims proved about them are order and field identities.
- `Time` values are embedded as natural numbers of integer time units
  (ns-3 time is an integer tick count).
- `NS_FATAL_ERROR` / `NS_ASSERT` failure paths are embedded as `Option`
  results (`none` = fatal configuration error).
-/

/-- Embedding of C++ `double` for the bandwidth arithmetic of the header. -/
abbrev CDouble := ℚ

/-- Embedding of ns-3 `Time` as an integer count of time units. -/
abbrev CTime := ℕ

/-- The C++ standard conversion `bool` to `double` (`true ↦ 1.0`, `false ↦ 0.0`),
used where the header returns a stored `bool` from a `double`-typed getter. -/
def boolToDouble (b : Bool) : CDouble := if b then 1 else 0

/-- State of `SatBtuConf` (satellite-frame-conf.h, lines 89-94): the three
bandwidth figures; the unused `m_duration` field is omitted. -/
structure SatBtuConf where
  m_allocatedBandwidthInHz : CDouble
  m_occupiedBandwidthInHz : CDouble
  m_effectiveBandwidthInHz : CDouble
deriving Repr, DecidableEq

/-- `SatBtuConf::GetAllocatedBandwidthInHz` (header, line 66). -/
def SatBtuConf.GetAllocatedBandwidthInHz (b : SatBtuConf) : CDouble :=
  b.m_allocatedBandwidthInHz

/-- `SatBtuConf::GetOccupiedBandwidthInHz` (header, line 73). -/
def SatBtuConf.GetOccupiedBandwidthInHz (b : SatBtuConf) : CDouble :=
  b.m_occupiedBandwidthInHz

/-- `SatBtuConf::GetEffectiveBandwidthInHz` (header, line 80). -/
def SatBtuConf.GetEffectiveBandwidthInHz (b : SatBtuConf) : CDouble :=
  b.m_effectiveBandwidthInHz

/-- `SatBtuConf::GetSymbolRateInBauds` (header, line 87): returns the
effective bandwidth. -/
def SatBtuConf.GetSymbolRateInBauds (b : SatBtuConf) : CDouble :=
  b.GetEffectiveBandwidthInHz

/-- Modelled from the spec: the body of the constructor
`SatBtuConf::SatBtuConf (double bandwidthInHz, double rollOff, double spacing)`
is in `satellite-frame-conf.cc`, which is not under src/ (the header only
declares it at line 54).  Spec section 4.1: the constructor stores the
allocated bandwidth and derives
`occupiedBandwidthHz = allocatedBandwidthHz / (1 + spacing)` and
`effectiveBandwidthHz = occupiedBandwidthHz / (1 + rollOff)`. -/
def SatBtuConf.construct (bandwidthInHz rollOff spacing : CDouble) : SatBtuConf :=
  { m_allocatedBandwidthInHz := bandwidthInHz
  , m_occupiedBandwidthInHz := bandwidthInHz / (1 + spacing)
  , m_effectiveBandwidthInHz := bandwidthInHz / (1 + spacing) / (1 + rollOff) }

/-- State of `SatTimeSlotConf` (header, lines 159-164). -/
structure SatTimeSlotConf where
  m_startTime : CTime
  m_waveFormId : ℕ
  m_frameCarrierId : ℕ
  m_rcIndex : ℕ
deriving Repr, DecidableEq

/-- `SatTimeSlotConf::GetStartTime` (header, line 129). -/
def SatTimeSlotConf.GetStartTime (s : SatTimeSlotConf) : CTime := s.m_startTime

/-- `SatTimeSlotConf::GetWaveFormId` (header, line 136). -/
def SatTimeSlotConf.GetWaveFormId (s : SatTimeSlotConf) : ℕ := s.m_waveFormId

/-- `SatTimeSlotConf::GetCarrierId` (header, line 143): returns
`m_frameCarrierId`. -/
def SatTimeSlotConf.GetCarrierId (s : SatTimeSlotConf) : ℕ := s.m_frameCarrierId

/-- `SatTimeSlotConf::SetRcIndex` (header, line 150): stores the argument in
`m_rcIndex` and touches nothing else. -/
def SatTimeSlotConf.SetRcIndex (s : SatTimeSlotConf) (rcIndex : ℕ) : SatTimeSlotConf :=
  { s with m_rcIndex := rcIndex }

/-- `SatTimeSlotConf::GetRcIndex` (header, line 157). -/
def SatTimeSlotConf.GetRcIndex (s : SatTimeSlotConf) : ℕ := s.m_rcIndex

/-- Tag values of `SatEnums::CarrierBandwidthType_t`, as they appear in the
switch of `SatFrameConf::GetCarrierBandwidthHz` (header, lines 261-278).
`satellite-enums.h` is not under src/, so the tag is embedded as the
underlying C++ enum integer; a C++ enum variable may hold values other than
the three named enumerators, which land in the `default` branch. -/
def SatEnums.ALLOCATED_BANDWIDTH : ℕ := 0

/-- Tag value `SatEnums::OCCUPIED_BANDWIDTH`. -/
def SatEnums.OCCUPIED_BANDWIDTH : ℕ := 1

/-- Tag value `SatEnums::EFFECTIVE_BANDWIDTH`. -/
def SatEnums.EFFECTIVE_BANDWIDTH : ℕ := 2

/-- `SatFrameConf::maxTimeSlotCount` (header, line 180). -/
def SatFrameConf.maxTimeSlotCount : ℕ := 2048

/-- `SatFrameConf::maxTimeSlotIndex` (header, line 181):
`maxTimeSlotCount - 1`. -/
def SatFrameConf.maxTimeSlotIndex : ℕ := SatFrameConf.maxTimeSlotCount - 1

/-- State of `SatFrameConf` (header, lines 319-327).  The per-carrier map
`m_timeSlotConfMap` is embedded as a total function from carrier id to the
ordered slot list of that carrier (absent keys map to the empty list); the
flat slot sequence, which the spec (section 3) says is indexed by append
order across all carriers, is kept as `m_timeSlotConfs`. -/
structure SatFrameConf where
  m_bandwidthHz : CDouble
  m_duration : CTime
  m_isRandomAccess : Bool
  m_btu : SatBtuConf
  m_carrierCount : ℕ
  m_timeSlotConfs : List SatTimeSlotConf
  m_timeSlotConfMap : ℕ → List SatTimeSlotConf

/-- `SatFrameConf::GetBandwidthHz` (header, line 234). -/
def SatFrameConf.GetBandwidthHz (f : SatFrameConf) : CDouble := f.m_bandwidthHz

/-- `SatFrameConf::GetDuration` (header, line 241). -/
def SatFrameConf.GetDuration (f : SatFrameConf) : CTime := f.m_duration

/-- `SatFrameConf::GetCarrierCount` (header, line 295): returns
`m_carrierCount`. -/
def SatFrameConf.GetCarrierCount (f : SatFrameConf) : ℕ := f.m_carrierCount

/-- `SatFrameConf::IsRandomAccess` (header, line 317). -/
def SatFrameConf.IsRandomAccess (f : SatFrameConf) : Bool := f.m_isRandomAccess

/-- `SatFrameConf::GetBtuConf` (header, line 288). -/
def SatFrameConf.GetBtuConf (f : SatFrameConf) : SatBtuConf := f.m_btu

/-- `SatFrameConf::GetCarrierBandwidthHz` (header, lines 257-281): a switch
on the bandwidth-type tag returning one of the BTU's three bandwidth
figures; the `default` branch is `NS_FATAL_ERROR`, embedded as `none`. -/
def SatFrameConf.GetCarrierBandwidthHz (f : SatFrameConf) (bandwidthType : ℕ) :
    Option CDouble :=
  if bandwidthType = SatEnums.ALLOCATED_BANDWIDTH then
    some (f.m_btu.GetAllocatedBandwidthInHz)
  else if bandwidthType = SatEnums.OCCUPIED_BANDWIDTH then
    some (f.m_btu.GetOccupiedBandwidthInHz)
  else if bandwidthType = SatEnums.EFFECTIVE_BANDWIDTH then
    some (f.m_btu.GetEffectiveBandwidthInHz)
  else
    none

/-- Modelled from the spec: the body of the constructor
`SatFrameConf::SatFrameConf (double bandwidthHz, Time duration, Ptr btu,
SatTimeSlotConfMap_t timeSlots, bool isRandomAccess)` is in
`satellite-frame-conf.cc`, not under src/ (header only declares it at
lines 196-197).  Spec sections 3 and 4.3: `carrierCount` is derived as
`floor(bandwidthHz / btu.allocatedBandwidthHz)` with the remainder
discarded; the supplied per-carrier slot map is stored.  The flat slot list
is the concatenation of the per-carrier buckets (`initSlots`). -/
def SatFrameConf.construct (bandwidthHz : CDouble) (duration : CTime)
    (btu : SatBtuConf) (timeSlots : ℕ → List SatTimeSlotConf)
    (initSlots : List SatTimeSlotConf) (isRandomAccess : Bool) : SatFrameConf :=
  { m_bandwidthHz := bandwidthHz
  , m_duration := duration
  , m_isRandomAccess := isRandomAccess
  , m_btu := btu
  , m_carrierCount := Int.toNat ⌊bandwidthHz / btu.GetAllocatedBandwidthInHz⌋
  , m_timeSlotConfs := initSlots
  , m_timeSlotConfMap := timeSlots }

/-- Modelled from the spec: the body of `SatFrameConf::AddTimeSlotConf`
is in `satellite-frame-conf.cc`, not under src/ (header only declares it at
line 210).  Spec section 4.3: appends to the flat slot list and to the
per-carrier bucket, returns the newly assigned flat index, and fails
fatally when the flat index would exceed `maxTimeSlotIndex` (2047); the
fatal path is embedded as `none`. -/
def SatFrameConf.AddTimeSlotConf (f : SatFrameConf) (conf : SatTimeSlotConf) :
    Option (ℕ × SatFrameConf) :=
  let idx := f.m_timeSlotConfs.length
  if idx ≤ SatFrameConf.maxTimeSlotIndex then
    some (idx,
      { f with
        m_timeSlotConfs := f.m_timeSlotConfs ++ [conf]
        m_timeSlotConfMap := fun c =>
          if c = conf.m_frameCarrierId then f.m_timeSlotConfMap c ++ [conf]
          else f.m_timeSlotConfMap c })
  else
    none

/-- `SatFrameConf::GetTimeSlotCount` — modelled from the spec (body in the
missing .cc): the flat time-slot count of the frame. -/
def SatFrameConf.GetTimeSlotCount (f : SatFrameConf) : ℕ :=
  f.m_timeSlotConfs.length

/-- `SatFrameConf::GetTimeSlotConfs` — modelled from the spec (body in the
missing .cc): the ordered slot list of one carrier. -/
def SatFrameConf.GetTimeSlotConfs (f : SatFrameConf) (carrierId : ℕ) :
    List SatTimeSlotConf :=
  f.m_timeSlotConfMap carrierId

/-- `SatSuperframeConf::m_maxFrameCount` (header, line 350). -/
def SatSuperframeConf.m_maxFrameCount : ℕ := 10

/-- State of `SatSuperframeConf` (header, lines 553-571).  The five
per-frame parameter arrays of length `m_maxFrameCount` are embedded as
functions from `Fin 10`; `m_raChannels` holds `(frameId, frameCarrierId)`
pairs (`RaChannelInfo_t`, header line 554). -/
structure SatSuperframeConf where
  m_usedBandwidthHz : CDouble
  m_duration : CTime
  m_frameCount : ℕ
  m_configType : ℕ
  m_frameAllocatedBandwidth : Fin 10 → CDouble
  m_frameCarrierAllocatedBandwidth : Fin 10 → CDouble
  m_frameCarrierSpacing : Fin 10 → CDouble
  m_frameCarrierRollOff : Fin 10 → CDouble
  m_frameIsRandomAccess : Fin 10 → Bool
  m_frames : List SatFrameConf
  m_raChannels : List (ℕ × ℕ)
  m_carrierCount : ℕ

/-- Modelled from the spec: the body of `SatSuperframeConf::AddFrameConf`
is in `satellite-frame-conf.cc`, not under src/ (header only declares it
at line 392).  Spec section 4.4: appends to the frame list and increases
`m_carrierCount` by the new frame's carrier count. -/
def SatSuperframeConf.AddFrameConf (s : SatSuperframeConf) (conf : SatFrameConf) :
    SatSuperframeConf :=
  { s with
    m_frames := s.m_frames ++ [conf]
    m_carrierCount := s.m_carrierCount + conf.m_carrierCount }

/-- Modelled from the spec: the body of
`SatSuperframeConf::GetCarrierCount` is in `satellite-frame-conf.cc`, not
under src/ (header only declares it at line 431).  Spec section 4.4:
returns the superframe-wide `m_carrierCount` maintained by `AddFrameConf`. -/
def SatSuperframeConf.GetCarrierCount (s : SatSuperframeConf) : ℕ :=
  s.m_carrierCount

/-- Modelled from the spec: the body of `SatSuperframeConf::GetCarrierId`
is in `satellite-frame-conf.cc`, not under src/ (header only declares it
at line 424).  Spec sections 3 and 4.4: the global carrier id is the sum
of the carrier counts of the frames preceding `frameId` in frame-list
order, plus the frame-local carrier id. -/
def SatSuperframeConf.GetCarrierId (s : SatSuperframeConf) (frameId : ℕ)
    (frameCarrierId : ℕ) : ℕ :=
  ((s.m_frames.take frameId).map (fun fr => fr.m_carrierCount)).sum + frameCarrierId

/-- Linear search over frame carrier-count boundaries: returns the index of
the frame whose carrier block contains global carrier id `c` (walks past the
end for out-of-range ids, which the code treats as a contract violation). -/
def carrierFrameSearch : List ℕ → ℕ → ℕ
  | [], _ => 0
  | n :: rest, c => if c < n then 0 else carrierFrameSearch rest (c - n) + 1

/-- Modelled from the spec: the body of
`SatSuperframeConf::GetCarrierFrame` is in `satellite-frame-conf.cc`, not
under src/ (header only declares it at line 579).  Spec section 4.4: a
linear search over frame carrier-count boundaries for the frame owning the
given global carrier id. -/
def SatSuperframeConf.GetCarrierFrame (s : SatSuperframeConf) (carrierId : ℕ) : ℕ :=
  carrierFrameSearch (s.m_frames.map (fun fr => fr.m_carrierCount)) carrierId

/-- Local carrier id of global carrier `c` inside the frame found by
`GetCarrierFrame`: the offset of `c` past that frame's first global id. -/
def SatSuperframeConf.localCarrierId (s : SatSuperframeConf) (c : ℕ) : ℕ :=
  c - ((s.m_frames.take (s.GetCarrierFrame c)).map (fun fr => fr.m_carrierCount)).sum

/-- Modelled from the spec: the bodies of
`SatSuperframeConf::GetFrameRandomAccess` and its sibling per-frame
parameter getters are in `satellite-frame-conf.cc`, not under src/ (header
only declares them at lines 547-551).  Spec section 4.4: they index the
fixed-arity per-frame parameter table. -/
def SatSuperframeConf.GetFrameRandomAccess (s : SatSuperframeConf) (frameIndex : Fin 10) :
    Bool :=
  s.m_frameIsRandomAccess frameIndex

/-- `SatSuperframeConf::GetFrame0RandomAccess`, generated by
`FRAME_ATTRIBUTE_ACCESSOR_DEFINE (0)` (header lines 602-603, 607): declared
with return type `double` and body `return GetFrameRandomAccess (0);`, so
the `bool` result of `GetFrameRandomAccess` is returned through the C++
standard conversion to `double`. -/
def SatSuperframeConf.GetFrame0RandomAccess (s : SatSuperframeConf) : CDouble :=
  boolToDouble (s.GetFrameRandomAccess 0)

/-- `SatSuperframeConf::GetFrame1RandomAccess` (header lines 602-603, 608). -/
def SatSuperframeConf.GetFrame1RandomAccess (s : SatSuperframeConf) : CDouble :=
  boolToDouble (s.GetFrameRandomAccess 1)

/-- `SatSuperframeConf::GetFrame2RandomAccess` (header lines 602-603, 609). -/
def SatSuperframeConf.GetFrame2RandomAccess (s : SatSuperframeConf) : CDouble :=
  boolToDouble (s.GetFrameRandomAccess 2)

/-- `SatSuperframeConf::GetFrame3RandomAccess` (header lines 602-603, 610). -/
def SatSuperframeConf.GetFrame3RandomAccess (s : SatSuperframeConf) : CDouble :=
  boolToDouble (s.GetFrameRandomAccess 3)

/-- `SatSuperframeConf::GetFrame4RandomAccess` (header lines 602-603, 611). -/
def SatSuperframeConf.GetFrame4RandomAccess (s : SatSuperframeConf) : CDouble :=
  boolToDouble (s.GetFrameRandomAccess 4)

/-- `SatSuperframeConf::GetFrame5RandomAccess` (header lines 602-603, 612). -/
def SatSuperframeConf.GetFrame5RandomAccess (s : SatSuperframeConf) : CDouble :=
  boolToDouble (s.GetFrameRandomAccess 5)

/-- `SatSuperframeConf::GetFrame6RandomAccess` (header lines 602-603, 613). -/
def SatSuperframeConf.GetFrame6RandomAccess (s : SatSuperframeConf) : CDouble :=
  boolToDouble (s.GetFrameRandomAccess 6)

/-- `SatSuperframeConf::GetFrame7RandomAccess` (header lines 602-603, 614). -/
def SatSuperframeConf.GetFrame7RandomAccess (s : SatSuperframeConf) : CDouble :=
  boolToDouble (s.GetFrameRandomAccess 7)

/-- `SatSuperframeConf::GetFrame8RandomAccess` (header lines 602-603, 615). -/
def SatSuperframeConf.GetFrame8RandomAccess (s : SatSuperframeConf) : CDouble :=
  boolToDouble (s.GetFrameRandomAccess 8)

/-- `SatSuperframeConf::GetFrame9RandomAccess` (header lines 602-603, 616). -/
def SatSuperframeConf.GetFrame9RandomAccess (s : SatSuperframeConf) : CDouble :=
  boolToDouble (s.GetFrameRandomAccess 9)

/-- Dispatch table collecting the ten macro-generated getters
`GetFrame0RandomAccess` .. `GetFrame9RandomAccess` by frame index. -/
def SatSuperframeConf.GetFrameIndexedRandomAccess (s : SatSuperframeConf)
    (i : Fin 10) : CDouble :=
  if i.val = 0 then s.GetFrame0RandomAccess
  else if i.val = 1 then s.GetFrame1RandomAccess
  else if i.val = 2 then s.GetFrame2RandomAccess
  else if i.val = 3 then s.GetFrame3RandomAccess
  else if i.val = 4 then s.GetFrame4RandomAccess
  else if i.val = 5 then s.GetFrame5RandomAccess
  else if i.val = 6 then s.GetFrame6RandomAccess
  else if i.val = 7 then s.GetFrame7RandomAccess
  else if i.val = 8 then s.GetFrame8RandomAccess
  else s.GetFrame9RandomAccess

/-- Modelled from the spec: the body of
`SatSuperframeConf::GetRaChannelCount` is in `satellite-frame-conf.cc`,
not under src/ (header only declares it at line 496).  Spec section 8:
returns the size of `m_raChannels`. -/
def SatSuperframeConf.GetRaChannelCount (s : SatSuperframeConf) : ℕ :=
  s.m_raChannels.length

/-- Modelled from the spec: the body of
`SatSuperframeConf::GetRaChannelFrameId` is in `satellite-frame-conf.cc`,
not under src/ (header only declares it at line 504).  Spec section 4.4:
indexes into `m_raChannels` by position and returns the stored frame id;
an out-of-range `raChannel` is fatal, embedded as `none`. -/
def SatSuperframeConf.GetRaChannelFrameId (s : SatSuperframeConf) (raChannel : ℕ) :
    Option ℕ :=
  (s.m_raChannels.get? raChannel).map Prod.fst

/-- Modelled from the spec: the random-access scan of
`SatSuperframeConf::Configure` / `DoConfigure` (bodies in
`satellite-frame-conf.cc`, not under src/; header lines 467 and 473).
Spec sections 3 and 4.4 step 5: `raChannels` is built by scanning the
frames in frame order and, for each frame flagged random-access, recording
each of its carriers in carrier order as one RA channel; `fid` is the index
of the first frame of the remaining list. -/
def buildRaChannelsFrom : ℕ → List SatFrameConf → List (ℕ × ℕ)
  | _, [] => []
  | fid, fr :: rest =>
    (if fr.m_isRandomAccess then
       (List.range fr.m_carrierCount).map (fun c => (fid, c))
     else []) ++ buildRaChannelsFrom (fid + 1) rest

/-- RA channel list of a configured superframe: the scan started at frame 0. -/
def buildRaChannels (frames : List SatFrameConf) : List (ℕ × ℕ) :=
  buildRaChannelsFrom 0 frames

/-- Interface of the waveform catalog (`SatWaveformConf`), an external
collaborator whose source is out of scope (spec section 6):
`bestWaveform availableTime symbolRate` returns the id of the best-fitting
waveform, or `none` when no waveform fits; `burstDuration waveformId
symbolRate` returns the burst duration of a waveform at a symbol rate. -/
structure SatWaveformConf where
  bestWaveform : CTime → CDouble → Option ℕ
  burstDuration : ℕ → CDouble → CTime

/-- Modelled from the spec: the per-carrier slot-placement loop of
`SatSuperframeConf::DoConfigure` (bodies of the four variants in
`satellite-frame-conf.cc`, not under src/; header lines 473, 641, 668,
696, 723).  Spec section 4.4 step 3: repeatedly query the waveform catalog
for the best-fitting waveform, and append time slots back-to-back (each
slot's start time is the previous slot's start time plus the previous
slot's waveform-derived duration) until no further whole slot fits within
the frame duration; a failed catalog lookup stops placement on the carrier
(spec section 7).  `fuel` bounds the loop for totality; `placeSlots` below
supplies enough for every terminating layout. -/
def placeSlotsAux (cat : SatWaveformConf) (rate : CDouble) (carrierId : ℕ)
    (frameDuration : CTime) : ℕ → CTime → List SatTimeSlotConf
  | 0, _ => []
  | fuel + 1, start =>
    match cat.bestWaveform (frameDuration - start) rate with
    | none => []
    | some w =>
      if start + cat.burstDuration w rate ≤ frameDuration then
        { m_startTime := start, m_waveFormId := w, m_frameCarrierId := carrierId
        , m_rcIndex := 0 } ::
          placeSlotsAux cat rate carrierId frameDuration fuel
            (start + cat.burstDuration w rate)
      else []

/-- Slot layout of one carrier, starting at time 0 (spec section 4.4 step 3). -/
def placeSlots (cat : SatWaveformConf) (rate : CDouble) (carrierId : ℕ)
    (frameDuration : CTime) : List SatTimeSlotConf :=
  placeSlotsAux cat rate carrierId frameDuration (frameDuration + 1) 0

/-- The step relation between consecutive slots of one carrier: the second
slot starts where the first slot's burst (at the carrier symbol rate) ends. -/
def slotStep (cat : SatWaveformConf) (rate : CDouble) (a b : SatTimeSlotConf) : Prop :=
  b.m_startTime = a.m_startTime + cat.burstDuration a.m_waveFormId rate

/-- Default `SatFrameConf` value, used as the `getD` fallback in statements. -/
def defaultFrame : SatFrameConf :=
  { m_bandwidthHz := 0
  , m_duration := 0
  , m_isRandomAccess := false
  , m_btu := { m_allocatedBandwidthInHz := 0, m_occupiedBandwidthInHz := 0
             , m_effectiveBandwidthInHz := 0 }
  , m_carrierCount := 0
  , m_timeSlotConfs := []
  , m_timeSlotConfMap := fun _ => [] }

/-- Sample BTU of the end-to-end scenario of spec section 8:
1 MHz allocated bandwidth, roll-off 0.2, spacing 0.2. -/
def sampleBtu : SatBtuConf := SatBtuConf.construct 1000000 (1/5) (1/5)

/-- Sample frame of the end-to-end scenario of spec section 8: 20 MHz over
the sample BTU, no slots yet. -/
def sampleFrame : SatFrameConf :=
  SatFrameConf.construct 20000000 100 sampleBtu (fun _ => []) [] false

/-- Sample time slot used by concrete witnesses. -/
def sampleSlot : SatTimeSlotConf :=
  { m_startTime := 0, m_waveFormId := 1, m_frameCarrierId := 0, m_rcIndex := 0 }

/-- A frame already holding the maximal number (2048) of time slots. -/
def fullFrame : SatFrameConf :=
  { sampleFrame with m_timeSlotConfs := List.replicate 2048 sampleSlot }

/-- Sample random-access frame with two carriers. -/
def frameA : SatFrameConf :=
  { m_bandwidthHz := 2000000
  , m_duration := 100
  , m_isRandomAccess := true
  , m_btu := sampleBtu
  , m_carrierCount := 2
  , m_timeSlotConfs := []
  , m_timeSlotConfMap := fun _ => [] }

/-- Sample dedicated-access frame with three carriers. -/
def frameB : SatFrameConf :=
  { m_bandwidthHz := 3000000
  , m_duration := 100
  , m_isRandomAccess := false
  , m_btu := sampleBtu
  , m_carrierCount := 3
  , m_timeSlotConfs := []
  , m_timeSlotConfMap := fun _ => [] }

/-- Sample configured superframe holding `frameA` and `frameB`, with the
carrier counter and RA channel list in the state `Configure` leaves them. -/
def sampleSuperframe : SatSuperframeConf :=
  { m_usedBandwidthHz := 5000000
  , m_duration := 100
  , m_frameCount := 2
  , m_configType := 0
  , m_frameAllocatedBandwidth := fun _ => 0
  , m_frameCarrierAllocatedBandwidth := fun _ => 0
  , m_frameCarrierSpacing := fun _ => 0
  , m_frameCarrierRollOff := fun _ => 0
  , m_frameIsRandomAccess := fun i => decide (i.val = 0)
  , m_frames := [frameA, frameB]
  , m_raChannels := buildRaChannels [frameA, frameB]
  , m_carrierCount := 5 }

/-- Sample waveform catalog: one waveform (id 1) of burst duration 5 time
units, always returned as the best fit. -/
def sampleCatalog : SatWaveformConf :=
  { bestWaveform := fun _ _ => some 1
  , burstDuration := fun _ _ => 5 }

/-- C10: `SetRcIndex` changes only the `rcIndex` field: afterwards
`GetRcIndex` returns the new value while `GetStartTime`, `GetWaveFormId`
and `GetCarrierId` return exactly their previous values. -/
theorem setRcIndex_changes_only_rcIndex (s : SatTimeSlotConf) (rcIndex : ℕ) :
    (s.SetRcIndex rcIndex).GetRcIndex = rcIndex ∧
    (s.SetRcIndex rcIndex).GetStartTime = s.GetStartTime ∧
    (s.SetRcIndex rcIndex).GetWaveFormId = s.GetWaveFormId ∧
    (s.SetRcIndex rcIndex).GetCarrierId = s.GetCarrierId := by
  refine ⟨rfl, rfl, rfl, rfl⟩

/-- C5: a `SatBtuConf` constructed from positive `(bandwidthInHz, rollOff,
spacing)` satisfies `0 < effective ≤ occupied ≤ allocated`, with the
occupied bandwidth derived as `allocated / (1 + spacing)` and the effective
bandwidth as `occupied / (1 + rollOff)`; the class exposes no mutators, so
the three figures are fixed at construction. -/
theorem btuConf_bandwidth_invariants (b r sp : CDouble)
    (hb : 0 < b) (hr : 0 < r) (hs : 0 < sp) :
    0 < (SatBtuConf.construct b r sp).GetEffectiveBandwidthInHz ∧
    (SatBtuConf.construct b r sp).GetEffectiveBandwidthInHz
      ≤ (SatBtuConf.construct b r sp).GetOccupiedBandwidthInHz ∧
    (SatBtuConf.construct b r sp).GetOccupiedBandwidthInHz
      ≤ (SatBtuConf.construct b r sp).GetAllocatedBandwidthInHz ∧
    (SatBtuConf.construct b r sp).GetOccupiedBandwidthInHz
      = (SatBtuConf.construct b r sp).GetAllocatedBandwidthInHz / (1 + sp) ∧
    (SatBtuConf.construct b r sp).GetEffectiveBandwidthInHz
      = (SatBtuConf.construct b r sp).GetOccupiedBandwidthInHz / (1 + r) := by
  have hs1 : (0:ℚ) < 1 + sp := by linarith
  have hr1 : (0:ℚ) < 1 + r := by linarith
  have hocc : (0:ℚ) < b / (1 + sp) := div_pos hb hs1
  refine ⟨div_pos hocc hr1, ?_, ?_, rfl, rfl⟩
  · exact div_le_self hocc.le (by linarith)
  · exact div_le_self hb.le (by linarith)

/-- Witness for C5 at `(bandwidthInHz, rollOff, spacing) = (2, 1, 1)`. -/
theorem btuConf_bandwidth_invariants_witness :
    (0:ℚ) < 2 ∧ (0:ℚ) < 1 ∧
    (0 < (SatBtuConf.construct 2 1 1).GetEffectiveBandwidthInHz ∧
     (SatBtuConf.construct 2 1 1).GetEffectiveBandwidthInHz
       ≤ (SatBtuConf.construct 2 1 1).GetOccupiedBandwidthInHz ∧
     (SatBtuConf.construct 2 1 1).GetOccupiedBandwidthInHz
       ≤ (SatBtuConf.construct 2 1 1).GetAllocatedBandwidthInHz ∧
     (SatBtuConf.construct 2 1 1).GetOccupiedBandwidthInHz
       = (SatBtuConf.construct 2 1 1).GetAllocatedBandwidthInHz / (1 + 1) ∧
     (SatBtuConf.construct 2 1 1).GetEffectiveBandwidthInHz
       = (SatBtuConf.construct 2 1 1).GetOccupiedBandwidthInHz / (1 + 1)) :=
  ⟨by norm_num, by norm_num,
   btuConf_bandwidth_invariants 2 1 1 (by norm_num) (by norm_num) (by norm_num)⟩

/-- C8: `GetCarrierBandwidthHz` returns the BTU's allocated bandwidth for
tag `ALLOCATED_BANDWIDTH`, the occupied bandwidth for `OCCUPIED_BANDWIDTH`,
the effective bandwidth for `EFFECTIVE_BANDWIDTH`, and hits the fatal
`default` branch (embedded as `none`) for any other tag value. -/
theorem getCarrierBandwidthHz_dispatch (f : SatFrameConf) (t : ℕ) :
    f.GetCarrierBandwidthHz SatEnums.ALLOCATED_BANDWIDTH
      = some f.m_btu.GetAllocatedBandwidthInHz ∧
    f.GetCarrierBandwidthHz SatEnums.OCCUPIED_BANDWIDTH
      = some f.m_btu.GetOccupiedBandwidthInHz ∧
    f.GetCarrierBandwidthHz SatEnums.EFFECTIVE_BANDWIDTH
      = some f.m_btu.GetEffectiveBandwidthInHz ∧
    (t ≠ SatEnums.ALLOCATED_BANDWIDTH → t ≠ SatEnums.OCCUPIED_BANDWIDTH →
      t ≠ SatEnums.EFFECTIVE_BANDWIDTH → f.GetCarrierBandwidthHz t = none) := by
  refine ⟨rfl, rfl, rfl, fun h1 h2 h3 => ?_⟩
  simp [SatFrameConf.GetCarrierBandwidthHz, h1, h2, h3]

/-- Witness for C8 at the sample frame, with 7 as the unrecognized tag. -/
theorem getCarrierBandwidthHz_dispatch_witness :
    sampleFrame.GetCarrierBandwidthHz SatEnums.ALLOCATED_BANDWIDTH
      = some sampleFrame.m_btu.GetAllocatedBandwidthInHz ∧
    sampleFrame.GetCarrierBandwidthHz SatEnums.OCCUPIED_BANDWIDTH
      = some sampleFrame.m_btu.GetOccupiedBandwidthInHz ∧
    sampleFrame.GetCarrierBandwidthHz SatEnums.EFFECTIVE_BANDWIDTH
      = some sampleFrame.m_btu.GetEffectiveBandwidthInHz ∧
    sampleFrame.GetCarrierBandwidthHz 7 = none := by
  have h := getCarrierBandwidthHz_dispatch sampleFrame 7
  exact ⟨h.1, h.2.1, h.2.2.1,
    h.2.2.2 (by decide) (by decide) (by decide)⟩

/-- C9: each macro-generated getter `GetFrame0RandomAccess` ..
`GetFrame9RandomAccess` is declared to return `double`, so it yields the
stored boolean frame flag converted to `0.0` or `1.0`, in agreement with
the `bool`-returning indexed getter `GetFrameRandomAccess`. -/
theorem frameRandomAccess_getters_return_double (s : SatSuperframeConf) (i : Fin 10) :
    s.GetFrameIndexedRandomAccess i = boolToDouble (s.GetFrameRandomAccess i) ∧
    (s.GetFrameIndexedRandomAccess i = 0 ∨ s.GetFrameIndexedRandomAccess i = 1) ∧
    (s.GetFrameIndexedRandomAccess i = 1 ↔ s.GetFrameRandomAccess i = true) ∧
    (s.GetFrameIndexedRandomAccess i = 0 ↔ s.GetFrameRandomAccess i = false) := by
  have hdisp : s.GetFrameIndexedRandomAccess i
      = boolToDouble (s.GetFrameRandomAccess i) := by
    fin_cases i <;>
      simp [SatSuperframeConf.GetFrameIndexedRandomAccess,
        SatSuperframeConf.GetFrame0RandomAccess, SatSuperframeConf.GetFrame1RandomAccess,
        SatSuperframeConf.GetFrame2RandomAccess, SatSuperframeConf.GetFrame3RandomAccess,
        SatSuperframeConf.GetFrame4RandomAccess, SatSuperframeConf.GetFrame5RandomAccess,
        SatSuperframeConf.GetFrame6RandomAccess, SatSuperframeConf.GetFrame7RandomAccess,
        SatSuperframeConf.GetFrame8RandomAccess, SatSuperframeConf.GetFrame9RandomAccess]
  refine ⟨hdisp, ?_, ?_, ?_⟩ <;>
    cases h : s.GetFrameRandomAccess i <;> simp [hdisp, boolToDouble, h]

/-- C4: a `SatFrameConf` constructed with bandwidth `b` over a BTU of
positive allocated bandwidth has `GetCarrierCount = floor (b / btuAlloc)`;
the floor characterization shows the remainder bandwidth is discarded:
the carriers cover at most `b`, and one more carrier would not fit. -/
theorem frameConf_carrierCount_floor (b : CDouble) (d : CTime) (btu : SatBtuConf)
    (ts : ℕ → List SatTimeSlotConf) (il : List SatTimeSlotConf) (ra : Bool)
    (hb : 0 ≤ b) (halloc : 0 < btu.GetAllocatedBandwidthInHz) :
    (SatFrameConf.construct b d btu ts il ra).GetCarrierCount
      = Int.toNat ⌊b / btu.GetAllocatedBandwidthInHz⌋ ∧
    ((SatFrameConf.construct b d btu ts il ra).GetCarrierCount : ℚ)
        * btu.GetAllocatedBandwidthInHz ≤ b ∧
    b < ((SatFrameConf.construct b d btu ts il ra).GetCarrierCount + 1 : ℚ)
        * btu.GetAllocatedBandwidthInHz := by
  have hq : (0:ℚ) ≤ b / btu.GetAllocatedBandwidthInHz := div_nonneg hb halloc.le
  have hfl : (0:ℤ) ≤ ⌊b / btu.GetAllocatedBandwidthInHz⌋ := Int.floor_nonneg.mpr hq
  have hcast : ((SatFrameConf.construct b d btu ts il ra).GetCarrierCount : ℚ)
      = (⌊b / btu.GetAllocatedBandwidthInHz⌋ : ℚ) := by
    show ((Int.toNat ⌊b / btu.GetAllocatedBandwidthInHz⌋ : ℕ) : ℚ)
      = (⌊b / btu.GetAllocatedBandwidthInHz⌋ : ℚ)
    rw [← Int.cast_natCast, Int.toNat_of_nonneg hfl]
  refine ⟨rfl, ?_, ?_⟩
  · rw [hcast]
    have h1 : (⌊b / btu.GetAllocatedBandwidthInHz⌋ : ℚ)
        ≤ b / btu.GetAllocatedBandwidthInHz := Int.floor_le _
    calc (⌊b / btu.GetAllocatedBandwidthInHz⌋ : ℚ) * btu.GetAllocatedBandwidthInHz
        ≤ (b / btu.GetAllocatedBandwidthInHz) * btu.GetAllocatedBandwidthInHz :=
          mul_le_mul_of_nonneg_right h1 halloc.le
      _ = b := div_mul_cancel₀ b halloc.ne.symm
  · rw [hcast]
    have h2 : b / btu.GetAllocatedBandwidthInHz
        < (⌊b / btu.GetAllocatedBandwidthInHz⌋ : ℚ) + 1 := Int.lt_floor_add_one _
    calc b = (b / btu.GetAllocatedBandwidthInHz) * btu.GetAllocatedBandwidthInHz :=
          (div_mul_cancel₀ b halloc.ne.symm).symm
      _ < ((⌊b / btu.GetAllocatedBandwidthInHz⌋ : ℚ) + 1) * btu.GetAllocatedBandwidthInHz :=
          mul_lt_mul_of_pos_right h2 halloc

/-- Witness for C4 at the end-to-end scenario of spec section 8: 20 MHz over
a 1 MHz BTU gives 20 carriers. -/
theorem frameConf_carrierCount_floor_witness :
    (0:ℚ) ≤ 20000000 ∧ 0 < sampleBtu.GetAllocatedBandwidthInHz ∧
    (SatFrameConf.construct 20000000 100 sampleBtu (fun _ => []) [] false).GetCarrierCount
      = Int.toNat ⌊(20000000:ℚ) / sampleBtu.GetAllocatedBandwidthInHz⌋ ∧
    (SatFrameConf.construct 20000000 100 sampleBtu (fun _ => []) [] false).GetCarrierCount
      = 20 := by
  have h := frameConf_carrierCount_floor 20000000 100 sampleBtu (fun _ => []) [] false
    (by norm_num)
    (by norm_num [sampleBtu, SatBtuConf.construct, SatBtuConf.GetAllocatedBandwidthInHz])
  refine ⟨by norm_num,
    by norm_num [sampleBtu, SatBtuConf.construct, SatBtuConf.GetAllocatedBandwidthInHz],
    h.1, ?_⟩
  rw [h.1]
  have : ⌊(20000000:ℚ) / sampleBtu.GetAllocatedBandwidthInHz⌋ = 20 := by
    norm_num [sampleBtu, SatBtuConf.construct, SatBtuConf.GetAllocatedBandwidthInHz]
  rw [this]
  rfl

/-- C3: `AddTimeSlotConf` appends the slot and returns the newly assigned
flat index (the previous flat count) whenever that index stays within
`maxTimeSlotIndex` (2047); it fails fatally (`none`) when the index would
exceed 2047, so a successful call never leaves more than 2048 flat slots. -/
theorem addTimeSlotConf_bounds (f : SatFrameConf) (c : SatTimeSlotConf) :
    (f.m_timeSlotConfs.length ≤ SatFrameConf.maxTimeSlotIndex →
      Option.map Prod.fst (f.AddTimeSlotConf c) = some f.GetTimeSlotCount ∧
      Option.map (fun p => (Prod.snd p).m_timeSlotConfs) (f.AddTimeSlotConf c)
        = some (f.m_timeSlotConfs ++ [c]) ∧
      ∀ p, f.AddTimeSlotConf c = some p →
        (Prod.snd p).GetTimeSlotCount ≤ SatFrameConf.maxTimeSlotCount) ∧
    (SatFrameConf.maxTimeSlotIndex < f.m_timeSlotConfs.length →
      f.AddTimeSlotConf c = none) := by
  constructor
  · intro hle
    rw [SatFrameConf.AddTimeSlotConf]
    simp only [if_pos hle]
    refine ⟨rfl, rfl, fun p hp => ?_⟩
    have hp2 := congrArg (Option.map (fun q => (Prod.snd q).m_timeSlotConfs)) hp
    simp only [Option.map_some] at hp2
    have : (Prod.snd p).m_timeSlotConfs = f.m_timeSlotConfs ++ [c] :=
      (Option.some.injEq _ _).mp hp2.symm
    show (Prod.snd p).m_timeSlotConfs.length ≤ SatFrameConf.maxTimeSlotCount
    rw [this, List.length_append, List.length_singleton]
    have : SatFrameConf.maxTimeSlotIndex + 1 = SatFrameConf.maxTimeSlotCount := by
      simp [SatFrameConf.maxTimeSlotIndex, SatFrameConf.maxTimeSlotCount]
    omega
  · intro hgt
    rw [SatFrameConf.AddTimeSlotConf]
    simp only [if_neg (by omega : ¬ f.m_timeSlotConfs.length ≤ SatFrameConf.maxTimeSlotIndex)]

/-- Witness for C3: adding to the empty sample frame succeeds with flat
index 0; adding to a frame holding 2048 slots is the fatal overflow. -/
theorem addTimeSlotConf_bounds_witness :
    sampleFrame.m_timeSlotConfs.length ≤ SatFrameConf.maxTimeSlotIndex ∧
    Option.map Prod.fst (sampleFrame.AddTimeSlotConf sampleSlot)
      = some sampleFrame.GetTimeSlotCount ∧
    SatFrameConf.maxTimeSlotIndex < fullFrame.m_timeSlotConfs.length ∧
    fullFrame.AddTimeSlotConf sampleSlot = none := by
  have h1 : sampleFrame.m_timeSlotConfs.length ≤ SatFrameConf.maxTimeSlotIndex := by
    simp [sampleFrame, SatFrameConf.construct, SatFrameConf.maxTimeSlotIndex,
      SatFrameConf.maxTimeSlotCount]
  have h2 : SatFrameConf.maxTimeSlotIndex < fullFrame.m_timeSlotConfs.length := by
    show SatFrameConf.maxTimeSlotIndex < (List.replicate 2048 sampleSlot).length
    rw [List.length_replicate]
    norm_num [SatFrameConf.maxTimeSlotIndex, SatFrameConf.maxTimeSlotCount]
  exact ⟨h1, ((addTimeSlotConf_bounds sampleFrame sampleSlot).1 h1).1, h2,
    (addTimeSlotConf_bounds fullFrame sampleSlot).2 h2⟩

/-- The linear boundary search never lands past the queried carrier id: the
carrier-count prefix covered by the frames preceding the found frame is at
most `c`. -/
theorem sum_take_carrierFrameSearch_le (l : List ℕ) (c : ℕ) :
    (l.take (carrierFrameSearch l c)).sum ≤ c := by
  induction l generalizing c with
  | nil => simp [carrierFrameSearch]
  | cons n rest ih =>
    by_cases h : c < n
    · simp [carrierFrameSearch, h]
    · push_neg at h
      rw [carrierFrameSearch, if_neg (by omega)]
      rw [List.take_succ_cons, List.sum_cons]
      have := ih (c - n)
      omega

/-- C2: global carrier ids are contiguous in frame-list order:
`GetCarrierId f k` is the sum of the carrier counts of the frames
preceding `f` plus `k`; `AddFrameConf` grows the superframe-wide carrier
count by exactly the added frame's carrier count, hands the added frame the
next contiguous id block (starting at the previous total), and preserves
the carrier-count bookkeeping invariant. -/
theorem addFrameConf_contiguous (s : SatSuperframeConf) (fr : SatFrameConf) (f k : ℕ)
    (hinv : s.m_carrierCount = (s.m_frames.map (fun x => x.m_carrierCount)).sum) :
    s.GetCarrierId f k
      = ((s.m_frames.take f).map (fun x => x.m_carrierCount)).sum + k ∧
    (s.AddFrameConf fr).GetCarrierCount = s.GetCarrierCount + fr.GetCarrierCount ∧
    (s.AddFrameConf fr).GetCarrierId s.m_frames.length k = s.GetCarrierCount + k ∧
    (s.AddFrameConf fr).m_carrierCount
      = ((s.AddFrameConf fr).m_frames.map (fun x => x.m_carrierCount)).sum := by
  refine ⟨rfl, rfl, ?_, ?_⟩
  · show (((s.m_frames ++ [fr]).take s.m_frames.length).map
        (fun x => x.m_carrierCount)).sum + k = s.GetCarrierCount + k
    rw [List.take_left, SatSuperframeConf.GetCarrierCount, hinv]
  · show s.m_carrierCount + fr.m_carrierCount
      = ((s.m_frames ++ [fr]).map (fun x => x.m_carrierCount)).sum
    rw [List.map_append, List.sum_append, hinv]
    simp

/-- Witness for C2 at the sample superframe (frames of 2 and 3 carriers),
appending a 20-carrier frame, with `f = 1` and `k = 1`. -/
theorem addFrameConf_contiguous_witness :
    sampleSuperframe.m_carrierCount
      = (sampleSuperframe.m_frames.map (fun x => x.m_carrierCount)).sum ∧
    sampleSuperframe.GetCarrierId 1 1
      = ((sampleSuperframe.m_frames.take 1).map (fun x => x.m_carrierCount)).sum + 1 ∧
    (sampleSuperframe.AddFrameConf sampleFrame).GetCarrierCount
      = sampleSuperframe.GetCarrierCount + sampleFrame.GetCarrierCount ∧
    (sampleSuperframe.AddFrameConf sampleFrame).GetCarrierId
        sampleSuperframe.m_frames.length 1
      = sampleSuperframe.GetCarrierCount + 1 := by
  have hinv : sampleSuperframe.m_carrierCount
      = (sampleSuperframe.m_frames.map (fun x => x.m_carrierCount)).sum := by
    show (5:ℕ) = ([frameA, frameB].map (fun x => x.m_carrierCount)).sum
    show (5:ℕ) = ([frameA.m_carrierCount, frameB.m_carrierCount]).sum
    show (5:ℕ) = ([2, 3] : List ℕ).sum
    simp
  have h := addFrameConf_contiguous sampleSuperframe sampleFrame 1 1 hinv
  exact ⟨hinv, h.1, h.2.1, h.2.2.1⟩

/-- C1: on the registered range (`c < GetCarrierCount`), `GetCarrierId`
inverts `GetCarrierFrame`: feeding the found frame id and the local carrier
id of `c` inside that frame back into `GetCarrierId` returns exactly `c`. -/
theorem getCarrierId_getCarrierFrame_roundtrip (s : SatSuperframeConf) (c : ℕ)
    (hinv : s.m_carrierCount = (s.m_frames.map (fun x => x.m_carrierCount)).sum)
    (hc : c < s.GetCarrierCount) :
    s.GetCarrierId (s.GetCarrierFrame c) (s.localCarrierId c) = c := by
  have hle : (((s.m_frames.take (s.GetCarrierFrame c))).map
      (fun x => x.m_carrierCount)).sum ≤ c := by
    rw [List.map_take, SatSuperframeConf.GetCarrierFrame]
    exact sum_take_carrierFrameSearch_le (s.m_frames.map (fun x => x.m_carrierCount)) c
  rw [SatSuperframeConf.GetCarrierId, SatSuperframeConf.localCarrierId]
  omega

/-- Witness for C1 at the sample superframe and global carrier id 3 (the
second carrier of the second frame). -/
theorem getCarrierId_getCarrierFrame_roundtrip_witness :
    sampleSuperframe.m_carrierCount
      = (sampleSuperframe.m_frames.map (fun x => x.m_carrierCount)).sum ∧
    3 < sampleSuperframe.GetCarrierCount ∧
    sampleSuperframe.GetCarrierId (sampleSuperframe.GetCarrierFrame 3)
        (sampleSuperframe.localCarrierId 3) = 3 := by
  have hinv : sampleSuperframe.m_carrierCount
      = (sampleSuperframe.m_frames.map (fun x => x.m_carrierCount)).sum := by
    show (5:ℕ) = ([2, 3] : List ℕ).sum
    simp
  have hc : 3 < sampleSuperframe.GetCarrierCount := by
    show (3:ℕ) < 5
    omega
  exact ⟨hinv, hc, getCarrierId_getCarrierFrame_roundtrip sampleSuperframe 3 hinv hc⟩

/-- The RA scan records one channel per carrier of every random-access
frame: its length is the sum of the carrier counts of the frames flagged
random-access. -/
theorem buildRaChannelsFrom_length (frames : List SatFrameConf) (fid : ℕ) :
    (buildRaChannelsFrom fid frames).length
      = ((frames.filter (fun fr => fr.m_isRandomAccess)).map
          (fun fr => fr.m_carrierCount)).sum := by
  induction frames generalizing fid with
  | nil => simp [buildRaChannelsFrom]
  | cons fr rest ih =>
    cases h : fr.m_isRandomAccess with
    | true =>
      simp [buildRaChannelsFrom, h, List.filter_cons, ih (fid + 1)]
    | false =>
      simp [buildRaChannelsFrom, h, List.filter_cons, ih (fid + 1)]

/-- Every entry recorded by the RA scan points back at a frame flagged
random-access: a pair `(fid, c)` in the scan started at `fid0` has
`fid0 ≤ fid`, addresses a frame inside the scanned list, and that frame's
random-access flag is set. -/
theorem buildRaChannelsFrom_mem (frames : List SatFrameConf) (fid0 fid c : ℕ)
    (hmem : (fid, c) ∈ buildRaChannelsFrom fid0 frames) :
    fid0 ≤ fid ∧ fid - fid0 < frames.length ∧
    (frames.getD (fid - fid0) defaultFrame).m_isRandomAccess = true := by
  induction frames generalizing fid0 with
  | nil => simp [buildRaChannelsFrom] at hmem
  | cons fr rest ih =>
    rw [buildRaChannelsFrom] at hmem
    rcases List.mem_append.mp hmem with hleft | hright
    · have hra : fr.m_isRandomAccess = true := by
        by_contra hra
        rw [if_neg hra] at hleft
        simp at hleft
      rw [if_pos hra] at hleft
      have := List.mem_map.mp hleft
      rcases this with ⟨k, _, hk⟩
      have hfid : fid = fid0 := (Prod.mk.injEq _ _ _ _).mp hk.symm |>.1
      subst hfid
      refine ⟨le_refl _, by simp, ?_⟩
      simp [List.getD, hra]
    · have := ih (fid0 + 1) hright
      rcases this with ⟨h1, h2, h3⟩
      refine ⟨by omega, by simp; omega, ?_⟩
      have hsub : fid - fid0 = (fid - (fid0 + 1)) + 1 := by omega
      rw [hsub, List.getD_cons_succ]
      exact h3

/-- C7: in a configured superframe (`m_raChannels` as built by the
`Configure` RA scan), `GetRaChannelCount` equals the size of `raChannels`,
which holds exactly one entry per carrier of every random-access frame;
every in-range `raChannel` yields a frame id addressing a frame whose
`IsRandomAccess()` is `true`. -/
theorem raChannel_bookkeeping (s : SatSuperframeConf)
    (hconf : s.m_raChannels = buildRaChannels s.m_frames) :
    s.GetRaChannelCount = s.m_raChannels.length ∧
    s.GetRaChannelCount
      = ((s.m_frames.filter (fun fr => fr.IsRandomAccess)).map
          (fun fr => fr.m_carrierCount)).sum ∧
    ∀ i fid, s.GetRaChannelFrameId i = some fid →
      fid < s.m_frames.length ∧
      (s.m_frames.getD fid defaultFrame).IsRandomAccess = true := by
  refine ⟨rfl, ?_, ?_⟩
  · rw [SatSuperframeConf.GetRaChannelCount, hconf, buildRaChannels]
    exact buildRaChannelsFrom_length s.m_frames 0
  · intro i fid hsome
    rw [SatSuperframeConf.GetRaChannelFrameId] at hsome
    rcases Option.map_eq_some'.mp hsome with ⟨p, hp, hfst⟩
    have hmem : p ∈ s.m_raChannels := List.get?_mem hp
    rw [hconf, buildRaChannels] at hmem
    have hpair : (fid, p.2) ∈ buildRaChannelsFrom 0 s.m_frames := by
      have : p = (fid, p.2) := by
        rw [← hfst]
      rw [← this]
      exact hmem
    have := buildRaChannelsFrom_mem s.m_frames 0 fid p.2 hpair
    rcases this with ⟨_, h2, h3⟩
    simp only [Nat.sub_zero] at h2 h3
    exact ⟨h2, h3⟩

/-- Witness for C7 at the sample superframe: two RA channels (the two
carriers of `frameA`), and RA channel 0 points at the random-access frame 0. -/
theorem raChannel_bookkeeping_witness :
    sampleSuperframe.GetRaChannelCount = sampleSuperframe.m_raChannels.length ∧
    sampleSuperframe.GetRaChannelCount
      = ((sampleSuperframe.m_frames.filter (fun fr => fr.IsRandomAccess)).map
          (fun fr => fr.m_carrierCount)).sum ∧
    sampleSuperframe.GetRaChannelCount = 2 ∧
    sampleSuperframe.GetRaChannelFrameId 0 = some 0 ∧
    (sampleSuperframe.m_frames.getD 0 defaultFrame).IsRandomAccess = true := by
  have h := raChannel_bookkeeping sampleSuperframe rfl
  have hcount : sampleSuperframe.GetRaChannelCount = 2 := by
    show (buildRaChannels [frameA, frameB]).length = 2
    rw [buildRaChannels, buildRaChannelsFrom]
    rw [if_pos (by rfl : frameA.m_isRandomAccess = true)]
    rw [buildRaChannelsFrom]
    rw [if_neg (by simp [frameB] : ¬ frameB.m_isRandomAccess = true)]
    rw [buildRaChannelsFrom]
    show ((List.range frameA.m_carrierCount).map (fun c => (0, c)) ++ ([] ++ [])).length = 2
    show ((List.range 2).map (fun c => (0, c)) ++ ([] ++ [])).length = 2
    simp
  have hchan : sampleSuperframe.GetRaChannelFrameId 0 = some 0 := by decide
  exact ⟨h.1, h.2.1, hcount, hchan, (h.2.2 0 0 hchan).2⟩

/-- The first slot the placement loop emits (if any) starts exactly at the
loop's current start time. -/
theorem placeSlotsAux_head_start (cat : SatWaveformConf) (rate : CDouble)
    (cid : ℕ) (D : CTime) :
    ∀ fuel start x, (placeSlotsAux cat rate cid D fuel start).head? = some x →
      x.m_startTime = start := by
  intro fuel start x h
  cases fuel with
  | zero => simp [placeSlotsAux] at h
  | succ n =>
    rw [placeSlotsAux] at h
    cases hbw : cat.bestWaveform (D - start) rate with
    | none => rw [hbw] at h; simp at h
    | some w =>
      rw [hbw] at h
      dsimp only at h
      by_cases hfit : start + cat.burstDuration w rate ≤ D
      · rw [if_pos hfit] at h
        simp only [List.head?_cons, Option.some.injEq] at h
        rw [← h]
      · rw [if_neg hfit] at h
        simp at h

/-- The slot list emitted by the placement loop is a back-to-back chain:
each slot starts where the previous slot's burst ends. -/
theorem placeSlotsAux_chain (cat : SatWaveformConf) (rate : CDouble)
    (cid : ℕ) (D : CTime) :
    ∀ fuel start, List.Chain' (slotStep cat rate)
      (placeSlotsAux cat rate cid D fuel start) := by
  intro fuel
  induction fuel with
  | zero => intro start; simp [placeSlotsAux]
  | succ n ih =>
    intro start
    rw [placeSlotsAux]
    cases hbw : cat.bestWaveform (D - start) rate with
    | none => simp
    | some w =>
      dsimp only
      by_cases hfit : start + cat.burstDuration w rate ≤ D
      · rw [if_pos hfit]
        refine List.Chain'.cons' (ih _) ?_
        intro y hy
        have hs := placeSlotsAux_head_start cat rate cid D n
          (start + cat.burstDuration w rate) y (Option.mem_def.mp hy)
        simp [slotStep, hs]
      · rw [if_neg hfit]
        simp

/-- C6: within one carrier of a configured frame, consecutive slots of the
placement loop are gapless: slot `i+1` starts at slot `i`'s start time plus
the burst duration of slot `i`'s waveform at the carrier symbol rate. -/
theorem placeSlots_contiguous (cat : SatWaveformConf) (rate : CDouble) (cid : ℕ)
    (D : CTime) (i : ℕ) (h : i + 1 < (placeSlots cat rate cid D).length) :
    ((placeSlots cat rate cid D).getD (i + 1) sampleSlot).GetStartTime
      = ((placeSlots cat rate cid D).getD i sampleSlot).GetStartTime
        + cat.burstDuration
            (((placeSlots cat rate cid D).getD i sampleSlot).GetWaveFormId) rate := by
  have hch : List.Chain' (slotStep cat rate) (placeSlots cat rate cid D) :=
    placeSlotsAux_chain cat rate cid D (D + 1) 0
  have hstep := List.chain'_iff_get.mp hch i (by omega)
  rw [slotStep] at hstep
  simp only [List.get_eq_getElem] at hstep
  rw [List.getD_eq_getElem _ _ h, List.getD_eq_getElem _ _ (by omega : i < _)]
  simpa [SatTimeSlotConf.GetStartTime, SatTimeSlotConf.GetWaveFormId] using hstep

/-- Witness for C6: the sample catalog (one waveform of burst duration 5)
on a frame of duration 12 places slots at times 0 and 5; slot 1 starts at
slot 0's start plus the burst duration. -/
theorem placeSlots_contiguous_witness :
    0 + 1 < (placeSlots sampleCatalog 1 0 12).length ∧
    ((placeSlots sampleCatalog 1 0 12).getD (0 + 1) sampleSlot).GetStartTime
      = ((placeSlots sampleCatalog 1 0 12).getD 0 sampleSlot).GetStartTime
        + sampleCatalog.burstDuration
            (((placeSlots sampleCatalog 1 0 12).getD 0 sampleSlot).GetWaveFormId) 1 :=
  ⟨by decide, placeSlots_contiguous sampleCatalog 1 0 12 0 (by decide)⟩
